import Mathlib

/-!
Shallow embedding of the portmidi-rs binding (src/lib.rs and src/context.rs)
for verification of its natural-language specification.

Machine integers are embedded as `Int` (with explicit `% 256` etc. where the
source masks or casts); fallible Rust code returns `Except`; calls into the
native PortMidi engine are parametrized by the status codes or device tables
the engine would return, and code paths that panic in Rust are embedded as
explicit outcome constructors.
-/

namespace PortmidiRs

/-- Engine status codes, mirroring `ffi::PmError` in src/lib.rs (lines 618-639):
`PmNoError = 0`, `PmGotData = 1`, and the error codes `-10000 .. -9992`. -/
inductive PmError where
  | pmNoError
  | pmGotData
  | pmHostError
  | pmInvalidDeviceId
  | pmInsufficientMemory
  | pmBufferTooSmall
  | pmBufferOverflow
  | pmBadPtr
  | pmBadData
  | pmInternalError
  | pmBufferMaxSize
deriving DecidableEq, Repr

/-- The integer representation of each `PmError` variant (src/lib.rs lines 620-638). -/
def PmError.toCode : PmError → Int
  | .pmNoError => 0
  | .pmGotData => 1
  | .pmHostError => -10000
  | .pmInvalidDeviceId => -9999
  | .pmInsufficientMemory => -9998
  | .pmBufferTooSmall => -9997
  | .pmBufferOverflow => -9996
  | .pmBadPtr => -9995
  | .pmBadData => -9994
  | .pmInternalError => -9993
  | .pmBufferMaxSize => -9992

/-- Partial inverse of `PmError.toCode`: `some` exactly on the eleven
representation values (the codes a transmute / `FromPrimitive` conversion in the
source accepts), `none` elsewhere. -/
def PmError.fromCode (c : Int) : Option PmError :=
  if c = 0 then some .pmNoError
  else if c = 1 then some .pmGotData
  else if c = -10000 then some .pmHostError
  else if c = -9999 then some .pmInvalidDeviceId
  else if c = -9998 then some .pmInsufficientMemory
  else if c = -9997 then some .pmBufferTooSmall
  else if c = -9996 then some .pmBufferOverflow
  else if c = -9995 then some .pmBadPtr
  else if c = -9994 then some .pmBadData
  else if c = -9993 then some .pmInternalError
  else if c = -9992 then some .pmBufferMaxSize
  else none

/-- A status denotes a genuine error exactly when its code is negative
(`PmNoError = 0` and `PmGotData = 1` are the two success statuses). -/
def PmError.isError (e : PmError) : Bool :=
  decide (e.toCode < 0)

theorem PmError.fromCode_toCode (e : PmError) : PmError.fromCode e.toCode = some e := by
  cases e <;> rfl

/-- Binding-level error type used by src/context.rs. Modelled from the spec:
types.rs is not among the sources; per the spec's Error Taxonomy the native
status codes are wrapped (here `portMidi`) and the binding adds
`NoDefaultDevice`, `NotAnInputDevice`, `NotAnOutputDevice` and `Invalid`. -/
inductive Error where
  | portMidi (e : PmError)
  | invalid
  | noDefaultDevice
  | notAnInputDevice
  | notAnOutputDevice
deriving DecidableEq, Repr

/-- Modelled from the spec: types.rs is not among the sources; `Result::from`
on a raw engine status yields `Ok(())` for the no-error status and wraps any
other status as a typed `Error::PortMidi` failure. -/
def Result.fromPm (e : PmError) : Except Error Unit :=
  if e = .pmNoError then .ok () else .error (.portMidi e)

/-- Modelled from the spec: the ffi module used by src/context.rs is not among
the sources; `PmError::try_from(code)` (the `MaybeError` trait) classifies a raw
engine return value, yielding the matching `PmError` (as the `Err` side) when
the value is one of the eleven status codes and passing the value through (as
the `Ok` side, a genuine device id) otherwise. -/
def PmError.tryFrom (c : Int) : Except PmError Int :=
  match PmError.fromCode c with
  | some e => .error e
  | none => .ok c

/-! ## Message codec (src/lib.rs, `PmMessage`) -/

/-- `PmMessage` (src/lib.rs lines 250-254): three `i8` fields. An `i8` value is
embedded as an `Int` in `[-128, 128)`. -/
structure PmMessage where
  status : Int
  data1 : Int
  data2 : Int
deriving DecidableEq, Repr

/-- Predicate that an `Int` is in the value range of Rust `i8`. -/
def isI8 (x : Int) : Prop := -128 ≤ x ∧ x < 128

instance (x : Int) : Decidable (isI8 x) := by
  unfold isI8; infer_instance

/-- The unsigned byte of an `i8` value: for `x` in `[-128, 128)` this is
`(x as i32) & 0xFF` (sign-extension followed by the low-byte mask), which for a
two's-complement representation is the nonnegative residue `x % 256`. -/
def i8Byte (x : Int) : Int := x % 256

/-- Reinterpretation of a byte in `[0, 256)` as an `i8`, i.e. the effect of
Rust's `as i8` on a value whose low byte is `b`. -/
def byteToI8 (b : Int) : Int := if b < 128 then b else b - 256

/-- `PmMessage::unwrap` (src/lib.rs lines 273-277): packs the message into a
32-bit word, `(((data2 as i32) << 16) & 0xFF0000) | (((data1 as i32) << 8) & 0xFF00)
| ((status as i32) & 0xFF)`. The three masked fields occupy disjoint bit ranges,
so the bitwise-or is addition of the shifted bytes. -/
def PmMessage.unwrap (m : PmMessage) : Int :=
  65536 * i8Byte m.data2 + 256 * i8Byte m.data1 + i8Byte m.status

/-- `PmMessage::wrap` (src/lib.rs lines 265-271): extracts the three bytes of a
32-bit word, `status = (c & 0xFF) as i8`, `data1 = ((c >> 8) & 0xFF) as i8`,
`data2 = ((c >> 16) & 0xFF) as i8`. The arithmetic right shift of an `i32` by 8
is flooring division by 256, which `Int` division (`Int.ediv`, flooring for a
positive divisor) matches, and `& 0xFF` is `% 256`. -/
def PmMessage.wrap (c : Int) : PmMessage :=
  { status := byteToI8 (c % 256)
    data1 := byteToI8 ((c / 256) % 256)
    data2 := byteToI8 ((c / 65536) % 256) }

/-! ## Events and input-port read (src/lib.rs) -/

/-- `ffi::CPmEvent` (src/lib.rs lines 613-616): a raw 32-bit message word and a
`u32` timestamp (embedded as `Nat`). -/
structure CPmEvent where
  message : Int
  timestamp : Nat
deriving DecidableEq, Repr

/-- `PmEvent` (src/lib.rs lines 347-350): a decoded message with its timestamp. -/
structure PmEvent where
  message : PmMessage
  timestamp : Nat
deriving DecidableEq, Repr

/-- `PmEvent::wrap` (src/lib.rs lines 354-359). -/
def PmEvent.wrap (c : CPmEvent) : PmEvent :=
  { message := PmMessage.wrap c.message, timestamp := c.timestamp }

/-- `PmInputPort::read` (src/lib.rs lines 447-464), parametrized by the count
`nbnote` the engine's `Pm_Read` returns (an `i16`) and the event buffer it
fills. The source matches: `0` yields `Err(PmNoError)`, a positive count yields
`Ok` of the one decoded event, and a negative count is transmuted to `PmError`
— a transmute that is well-defined only when the count is one of the status
codes, so the embedding returns `none` (undefined behaviour) otherwise. -/
def PmInputPort.read (nbnote : Int) (pevent : CPmEvent) : Option (Except PmError PmEvent) :=
  if nbnote = 0 then some (.error .pmNoError)
  else if nbnote > 0 then some (.ok (PmEvent.wrap pevent))
  else (PmError.fromCode nbnote).map (fun e => .error e)

/-- The arguments of one `Pm_WriteShort` engine call: a timestamp and a packed
32-bit message word. -/
structure WriteShortCall where
  timestamp : Nat
  message : Int
deriving DecidableEq, Repr

/-- `PmOutputPort::write_message` (src/lib.rs lines 592-597), modelled by the
engine call it issues: `Pm_WriteShort(stream, 0, midimessage.unwrap())`, i.e.
timestamp `0` and the packed word of the message. -/
def PmOutputPort.write_message (m : PmMessage) : WriteShortCall :=
  { timestamp := 0, message := m.unwrap }

/-! ## Device registry (src/context.rs) -/

/-- Device descriptor used by src/context.rs. Modelled from the spec: device.rs
is not among the sources; per the spec a DeviceDescriptor is an immutable
snapshot of id, interface name, device name, supports-input flag,
supports-output flag and opened flag. -/
structure DeviceInfo where
  id : Int
  interf : String
  name : String
  input : Bool
  output : Bool
  opened : Bool
deriving DecidableEq, Repr

/-- Supports-input flag of a descriptor (spec: direction flag checked by
`input_port`). -/
def DeviceInfo.is_input (d : DeviceInfo) : Bool := d.input

/-- Supports-output flag of a descriptor. -/
def DeviceInfo.is_output (d : DeviceInfo) : Bool := d.output

/-- Modelled from the spec: device.rs is not among the sources;
`DeviceInfo::new(id)` queries `engine_device_info(id)` (descriptor-or-null) and
surfaces the native invalid-device error when the engine returns null. The
engine's device table is passed in as `engineInfo`. -/
def DeviceInfo.new (engineInfo : Int → Option DeviceInfo) (id : Int) : Except Error DeviceInfo :=
  match engineInfo id with
  | some d => .ok d
  | none => .error (.portMidi .pmInvalidDeviceId)

/-- The registry state of `PortMidi` (src/context.rs lines 13-16): the device
count observed at initialization and the `VirtualDeviceSet`
(`virtual_devs: Mutex<Vec<PortMidiDeviceId>>`; the mutex guards the list, the
list itself is the state). -/
structure PortMidiState where
  device_count : Nat
  virtual_devs : List Int
deriving DecidableEq, Repr

/-- `PortMidi::new` (src/context.rs lines 23-35), parametrized by the status of
`Pm_Initialize` and the count `Pm_CountDevices` returns: propagates an
initialization failure via `?`, then returns the registry when the count is
nonnegative and `Err(Error::Invalid)` when it is negative. -/
def PortMidi.new (initStatus : PmError) (engineCount : Int) : Except Error PortMidiState :=
  match Result.fromPm initStatus with
  | .error e => .error e
  | .ok _ =>
    if engineCount ≥ 0 then .ok { device_count := engineCount.toNat, virtual_devs := [] }
    else .error .invalid

/-- `PM_NO_DEVICE` (src/lib.rs line 109): the engine's no-device sentinel. -/
def PM_NO_DEVICE : Int := -1

/-- `PortMidi::default_input_device_id` (src/context.rs lines 50-55),
parametrized by the id `Pm_GetDefaultInputDeviceID` returns: the sentinel maps
to `Err(Error::NoDefaultDevice)`, anything else is returned as the id. -/
def PortMidi.default_input_device_id (engineId : Int) : Except Error Int :=
  if engineId = PM_NO_DEVICE then .error .noDefaultDevice else .ok engineId

/-- `PortMidi::default_output_device_id` (src/context.rs lines 59-64), the
symmetric query for the default output device. -/
def PortMidi.default_output_device_id (engineId : Int) : Except Error Int :=
  if engineId = PM_NO_DEVICE then .error .noDefaultDevice else .ok engineId

/-- The loop of `PortMidi::devices` (src/context.rs lines 74-83) over ids
`i, i+1, ...` for `n` ids: collects each `DeviceInfo::new` result in order and
returns the first error, discarding the partially built vector. -/
def devicesFrom (engineInfo : Int → Option DeviceInfo) : Int → Nat → Except Error (List DeviceInfo)
  | _, 0 => .ok []
  | i, n + 1 =>
    match DeviceInfo.new engineInfo i with
    | .error e => .error e
    | .ok d =>
      match devicesFrom engineInfo (i + 1) n with
      | .error e => .error e
      | .ok l => .ok (d :: l)

/-- `PortMidi::devices` (src/context.rs lines 74-83): descriptors of ids
`0 .. device_count - 1` in ascending order. -/
def PortMidi.devices (engineInfo : Int → Option DeviceInfo) (st : PortMidiState) :
    Except Error (List DeviceInfo) :=
  devicesFrom engineInfo 0 st.device_count

/-- Result of opening a port: the list of native open calls issued (device id
and buffer size of each) together with the returned value. -/
structure PortOpenResult where
  openCalls : List (Int × Nat)
  result : Except Error Unit
deriving Repr

/-- Modelled from the spec: io.rs is not among the sources; `InputPort::new`
performs the native `engine_open_input(id, buffer_depth)` call and translates
its status. `openStatus` is the status the engine would return. -/
def InputPort.new (openStatus : PmError) (device : DeviceInfo) (bufferSize : Nat) :
    PortOpenResult :=
  { openCalls := [(device.id, bufferSize)], result := Result.fromPm openStatus }

/-- Modelled from the spec: io.rs is not among the sources; `OutputPort::new`
performs the native `engine_open_output(id, buffer_depth)` call and translates
its status. -/
def OutputPort.new (openStatus : PmError) (device : DeviceInfo) (bufferSize : Nat) :
    PortOpenResult :=
  { openCalls := [(device.id, bufferSize)], result := Result.fromPm openStatus }

/-- `PortMidi::input_port` (src/context.rs lines 95-101): checks the
descriptor's input flag before constructing the port; on a mismatch it returns
`Err(Error::NotAnInputDevice)` without any native call. -/
def PortMidi.input_port (openStatus : PmError) (device : DeviceInfo) (bufferSize : Nat) :
    PortOpenResult :=
  if device.is_input then InputPort.new openStatus device bufferSize
  else { openCalls := [], result := .error .notAnInputDevice }

/-- `PortMidi::output_port` (src/context.rs lines 113-119): checks the
descriptor's output flag before constructing the port; on a mismatch it returns
`Err(Error::NotAnOutputDevice)` without any native call. -/
def PortMidi.output_port (openStatus : PmError) (device : DeviceInfo) (bufferSize : Nat) :
    PortOpenResult :=
  if device.is_output then OutputPort.new openStatus device bufferSize
  else { openCalls := [], result := .error .notAnOutputDevice }

/-! ## create_virtual_output and teardown (src/context.rs) -/

/-- Outcome of `PortMidi::create_virtual_output`, carrying the resulting
`VirtualDeviceSet`. The two diverging code paths are distinguished:
`panicNoneId` is the `id.unwrap()` on a `None` id (engine returned the
`PmNoError` code), `panicInvalidName` is the explicit panic on
`PmInvalidDeviceId`. -/
inductive CvoResult where
  | ok (d : DeviceInfo) (virtual_devs : List Int)
  | err (e : Error) (virtual_devs : List Int)
  | panicNoneId (virtual_devs : List Int)
  | panicInvalidName (virtual_devs : List Int)
deriving DecidableEq, Repr

/-- `PortMidi::create_virtual_output` (src/context.rs lines 122-137),
parametrized by the raw value `engineRet` that `Pm_CreateVirtualOutput` returns
and the engine's device table. The source matches `PmError::try_from` on the
value: the `PmNoError` code makes the id `None` (so the later `id.unwrap()`
panics), the `PmInvalidDeviceId` code panics explicitly, any other status code
is returned as `Err(Error::PortMidi(err))`, and a non-status value is the new
id: it is pushed onto `virtual_devs` and its descriptor is returned. -/
def PortMidi.create_virtual_output (devs : List Int) (engineRet : Int)
    (engineInfo : Int → Option DeviceInfo) : CvoResult :=
  match PmError.tryFrom engineRet with
  | .error .pmNoError => .panicNoneId devs
  | .error .pmInvalidDeviceId => .panicInvalidName devs
  | .error e => .err (.portMidi e) devs
  | .ok id =>
    let devs := devs ++ [id]
    match DeviceInfo.new engineInfo id with
    | .ok d => .ok d devs
    | .error e => .err e devs

/-- Observable trace of `Drop for PortMidi`: which ids were passed to
`Pm_DeleteVirtualDevice`, whether `Pm_Terminate` was reached, and whether the
drop panicked. -/
structure DropTrace where
  deleteCalls : List Int
  terminateCalled : Bool
  panicked : Bool
deriving DecidableEq, Repr

/-- The deletion loop of `Drop for PortMidi` (src/context.rs lines 142-148):
for each tracked id, `Result::from(Pm_DeleteVirtualDevice(id))` is piped
through `.map_err(|err| println!(..))` — which logs and turns the error into
`Err(())` — and then `.unwrap()`, which panics on that `Err(())`. The returned
pair is the deletion calls issued and whether the loop ran to completion
(`false` = it panicked at the last listed call). -/
def dropDeletes (deleteStatus : Int → PmError) : List Int → List Int × Bool
  | [] => ([], true)
  | id :: rest =>
    match Result.fromPm (deleteStatus id) with
    | .ok _ =>
      match dropDeletes deleteStatus rest with
      | (calls, done) => (id :: calls, done)
    | .error _ => ([id], false)

/-- `Drop for PortMidi` (src/context.rs lines 140-154), parametrized by the
engine's status for each deletion and for `Pm_Terminate`. The `is_empty` guard
of the source only skips an empty loop, so iterating the list directly is
equivalent. After the loop, `Result::from(Pm_Terminate())` goes through the
same `.map_err(log).unwrap()` pattern, panicking on a terminate failure. -/
def PortMidi.drop (devs : List Int) (deleteStatus : Int → PmError) (termStatus : PmError) :
    DropTrace :=
  match dropDeletes deleteStatus devs with
  | (calls, false) => { deleteCalls := calls, terminateCalled := false, panicked := true }
  | (calls, true) =>
    match Result.fromPm termStatus with
    | .ok _ => { deleteCalls := calls, terminateCalled := true, panicked := false }
    | .error _ => { deleteCalls := calls, terminateCalled := true, panicked := true }

/-! ## Theorems -/

/-- C4: the message codec round-trips: for every `MidiMessage` (every triple of
`i8` values for status, data1, data2), decoding the 32-bit word produced by
encoding it yields the message again, i.e. `PmMessage::wrap(m.unwrap()) == m`. -/
theorem pmMessage_wrap_unwrap (s d1 d2 : Int) (hs : isI8 s) (h1 : isI8 d1) (h2 : isI8 d2) :
    PmMessage.wrap (PmMessage.unwrap ⟨s, d1, d2⟩) = ⟨s, d1, d2⟩ := by
  obtain ⟨hsa, hsb⟩ := hs
  obtain ⟨h1a, h1b⟩ := h1
  obtain ⟨h2a, h2b⟩ := h2
  simp only [PmMessage.unwrap, PmMessage.wrap, i8Byte, byteToI8, PmMessage.mk.injEq]
  refine ⟨?_, ?_, ?_⟩ <;> split <;> omega

/-- Witness for C4: the round-trip evaluated at the concrete message
`{status = 0x90 as i8 = -112, data1 = 60, data2 = 100}`. -/
theorem pmMessage_wrap_unwrap_witness :
    PmMessage.wrap (PmMessage.unwrap ⟨-112, 60, 100⟩) = ⟨-112, 60, 100⟩ :=
  pmMessage_wrap_unwrap (-112) 60 100 (by decide) (by decide) (by decide)

/-- C5: for every message the packed word has the status byte in bits [0,8),
data1 in bits [8,16), data2 in bits [16,24), bits [24,32) zero; the message
`{status = 0x90 (as i8, -112), data1 = 60, data2 = 100}` encodes to `0x643C90`,
and `write_message` passes exactly this word with timestamp 0 to the engine's
`Pm_WriteShort`. -/
theorem pmMessage_unwrap_layout :
    (∀ m : PmMessage,
      m.unwrap % 256 = i8Byte m.status ∧
      (m.unwrap / 256) % 256 = i8Byte m.data1 ∧
      (m.unwrap / 65536) % 256 = i8Byte m.data2 ∧
      m.unwrap / 16777216 = 0 ∧
      0 ≤ m.unwrap) ∧
    PmMessage.unwrap ⟨-112, 60, 100⟩ = 0x643C90 ∧
    PmOutputPort.write_message ⟨-112, 60, 100⟩ = { timestamp := 0, message := 0x643C90 } := by
  refine ⟨fun m => ?_, by decide, by decide⟩
  simp only [PmMessage.unwrap, i8Byte]
  omega

/-- C2: `PmInputPort::read` maps an engine count of zero to the non-error empty
result `Err(PmNoError)` (whose status is not an error status), a negative count
to the error kind whose code is that count, and a positive count to exactly one
decoded event. -/
theorem pmInputPort_read_cases (nbnote : Int) (pevent : CPmEvent) :
    (nbnote = 0 →
      PmInputPort.read nbnote pevent = some (.error .pmNoError) ∧
      PmError.isError .pmNoError = false) ∧
    (∀ e : PmError, nbnote < 0 → e.toCode = nbnote →
      PmInputPort.read nbnote pevent = some (.error e)) ∧
    (0 < nbnote → PmInputPort.read nbnote pevent = some (.ok (PmEvent.wrap pevent))) := by
  refine ⟨?_, ?_, ?_⟩
  · rintro rfl
    exact ⟨rfl, rfl⟩
  · rintro e hneg rfl
    unfold PmInputPort.read
    rw [if_neg (by omega), if_neg (by omega), PmError.fromCode_toCode]
    rfl
  · intro hpos
    unfold PmInputPort.read
    rw [if_neg (by omega), if_pos hpos]

/-- Witness for C2: the three cases evaluated at concrete engine counts, with
the bad-pointer status code for the negative case. -/
theorem pmInputPort_read_cases_witness :
    (PmInputPort.read 0 ⟨0, 0⟩ = some (.error .pmNoError) ∧
      PmError.isError .pmNoError = false) ∧
    PmInputPort.read (-9995) ⟨0, 0⟩ = some (.error .pmBadPtr) ∧
    PmInputPort.read 1 ⟨0x643C90, 7⟩ = some (.ok (PmEvent.wrap ⟨0x643C90, 7⟩)) :=
  ⟨(pmInputPort_read_cases 0 ⟨0, 0⟩).1 rfl,
   (pmInputPort_read_cases (-9995) ⟨0, 0⟩).2.1 .pmBadPtr (by decide) (by decide),
   (pmInputPort_read_cases 1 ⟨0x643C90, 7⟩).2.2 (by decide)⟩

/-- C6: for every descriptor and buffer size, `input_port` fails with
`NotAnInputDevice` when the supports-input flag is false and `output_port`
fails with `NotAnOutputDevice` when the supports-output flag is false, and in
the failing case no native open call is issued. -/
theorem port_direction_guard (openStatus : PmError) (device : DeviceInfo) (bufferSize : Nat) :
    (device.is_input = false →
      PortMidi.input_port openStatus device bufferSize =
        { openCalls := [], result := .error .notAnInputDevice }) ∧
    (device.is_output = false →
      PortMidi.output_port openStatus device bufferSize =
        { openCalls := [], result := .error .notAnOutputDevice }) := by
  constructor
  · intro h
    simp [PortMidi.input_port, h]
  · intro h
    simp [PortMidi.output_port, h]

/-- Witness for C6: an output-only descriptor rejected by `input_port` and an
input-only descriptor rejected by `output_port`. -/
theorem port_direction_guard_witness :
    PortMidi.input_port .pmNoError ⟨2, "ALSA", "out only", false, true, false⟩ 100 =
      { openCalls := [], result := .error .notAnInputDevice } ∧
    PortMidi.output_port .pmNoError ⟨3, "ALSA", "in only", true, false, false⟩ 100 =
      { openCalls := [], result := .error .notAnOutputDevice } :=
  ⟨(port_direction_guard .pmNoError ⟨2, "ALSA", "out only", false, true, false⟩ 100).1 rfl,
   (port_direction_guard .pmNoError ⟨3, "ALSA", "in only", true, false, false⟩ 100).2 rfl⟩

/-- C7: the default-device queries fail with `NoDefaultDevice` exactly when the
engine returns the no-device sentinel `-1`, never fail with any other error
kind, and succeed with every non-sentinel engine return value. -/
theorem default_device_id_cases (engineId : Int) :
    (engineId = PM_NO_DEVICE →
      PortMidi.default_input_device_id engineId = .error .noDefaultDevice ∧
      PortMidi.default_output_device_id engineId = .error .noDefaultDevice) ∧
    (engineId ≠ PM_NO_DEVICE →
      PortMidi.default_input_device_id engineId = .ok engineId ∧
      PortMidi.default_output_device_id engineId = .ok engineId) ∧
    (∀ e, PortMidi.default_input_device_id engineId = .error e → e = .noDefaultDevice) ∧
    (∀ e, PortMidi.default_output_device_id engineId = .error e → e = .noDefaultDevice) := by
  unfold PortMidi.default_input_device_id PortMidi.default_output_device_id
  by_cases h : engineId = PM_NO_DEVICE <;> simp [h]

/-- Witness for C7: the sentinel yields `NoDefaultDevice`, the id `2` is
returned as is. -/
theorem default_device_id_cases_witness :
    PortMidi.default_input_device_id (-1) = .error .noDefaultDevice ∧
    PortMidi.default_output_device_id 2 = .ok 2 :=
  ⟨((default_device_id_cases (-1)).1 rfl).1,
   ((default_device_id_cases 2).2.1 (by decide)).2⟩

/-- C9: `PortMidi::new` (after a successful engine initialization) fails with
`Error::Invalid` exactly when the engine's device count is negative, returns
the registry (with the observed count and an empty `VirtualDeviceSet`) when it
is nonnegative, and no registry value is ever produced in a failure case. -/
theorem portMidi_new_cases (initStatus : PmError) (engineCount : Int) :
    (initStatus = .pmNoError → engineCount < 0 →
      PortMidi.new initStatus engineCount = .error .invalid) ∧
    (initStatus = .pmNoError → 0 ≤ engineCount →
      PortMidi.new initStatus engineCount =
        .ok { device_count := engineCount.toNat, virtual_devs := [] }) ∧
    (∀ st, PortMidi.new initStatus engineCount = .ok st →
      initStatus = .pmNoError ∧ 0 ≤ engineCount ∧
      st = { device_count := engineCount.toNat, virtual_devs := [] }) := by
  unfold PortMidi.new Result.fromPm
  by_cases hi : initStatus = .pmNoError
  · by_cases hc : engineCount ≥ 0 <;> simp [hi, hc]
  · simp [hi]

/-- Witness for C9: a negative count fails with `Invalid`, a count of `3`
yields a registry with three devices and no virtual devices. -/
theorem portMidi_new_cases_witness :
    PortMidi.new .pmNoError (-1) = .error .invalid ∧
    PortMidi.new .pmNoError 3 = .ok { device_count := 3, virtual_devs := [] } :=
  ⟨(portMidi_new_cases .pmNoError (-1)).1 rfl (by decide),
   (portMidi_new_cases .pmNoError 3).2.1 rfl (by decide)⟩

/-- C3: `create_virtual_output` distinguishes the three engine outcomes: a
genuine id (no status code) is appended to the `VirtualDeviceSet` and its
descriptor returned; the invalid-device-id status (`-9999`, device exists or
name invalid) panics; any other error status is returned as
`Err(Error::PortMidi(_))` with the `VirtualDeviceSet` unchanged. -/
theorem create_virtual_output_trichotomy (devs : List Int) (engineRet : Int)
    (engineInfo : Int → Option DeviceInfo) :
    (∀ d, PmError.fromCode engineRet = none → engineInfo engineRet = some d →
      PortMidi.create_virtual_output devs engineRet engineInfo =
        .ok d (devs ++ [engineRet])) ∧
    (engineRet = -9999 →
      PortMidi.create_virtual_output devs engineRet engineInfo = .panicInvalidName devs) ∧
    (∀ e : PmError, e.toCode = engineRet → e.isError = true → e ≠ .pmInvalidDeviceId →
      PortMidi.create_virtual_output devs engineRet engineInfo =
        .err (.portMidi e) devs) := by
  refine ⟨?_, ?_, ?_⟩
  · intro d hNone hInfo
    unfold PortMidi.create_virtual_output PmError.tryFrom
    rw [hNone]
    simp [DeviceInfo.new, hInfo]
  · rintro rfl
    rfl
  · rintro e rfl hErr hNe
    unfold PortMidi.create_virtual_output PmError.tryFrom
    rw [PmError.fromCode_toCode]
    cases e
    case pmNoError => exact absurd hErr (by decide)
    case pmGotData => exact absurd hErr (by decide)
    case pmInvalidDeviceId => exact absurd rfl hNe
    all_goals rfl

/-- Sample engine device table with a single descriptor at id 5, used by the
witnesses below. -/
def sampleInfo : Int → Option DeviceInfo := fun i =>
  if i = 5 then some ⟨5, "ALSA", "virt", false, true, false⟩ else none

/-- Witness for C3: the engine hands out id 5, which is appended to an empty
`VirtualDeviceSet` and resolved to its descriptor. -/
theorem create_virtual_output_trichotomy_witness :
    PortMidi.create_virtual_output [] 5 sampleInfo =
      .ok ⟨5, "ALSA", "virt", false, true, false⟩ [5] :=
  (create_virtual_output_trichotomy [] 5 sampleInfo).1
    ⟨5, "ALSA", "virt", false, true, false⟩ (by decide) rfl

/-- C10: when the engine's virtual-device creation returns the no-error status
code `0` instead of a positive id, `create_virtual_output` panics by unwrapping
a `None` id, rather than returning any `Result`. -/
theorem create_virtual_output_zero_panics (devs : List Int)
    (engineInfo : Int → Option DeviceInfo) :
    PortMidi.create_virtual_output devs 0 engineInfo = .panicNoneId devs := rfl

/-- C1 (divergence): evaluating the teardown at a failing deletion shows the
drop panics (the `.map_err(log).unwrap()` pattern unwraps an `Err(())`): with
tracked ids `[3, 7]` and every deletion failing with `PmBadPtr`, only the first
deletion call is issued, `Pm_Terminate` is never reached and the drop panics —
and a failing `Pm_Terminate` likewise panics after both deletions succeed —
contradicting "logged but not propagated". -/
theorem portMidi_drop_panics_on_teardown_failure :
    PortMidi.drop [3, 7] (fun _ => PmError.pmBadPtr) PmError.pmNoError =
      { deleteCalls := [3], terminateCalled := false, panicked := true } ∧
    PortMidi.drop [3, 7] (fun _ => PmError.pmNoError) PmError.pmInternalError =
      { deleteCalls := [3, 7], terminateCalled := true, panicked := true } :=
  ⟨rfl, rfl⟩

/-- Helper for C8: when every id in the scanned range resolves, the loop
returns the list of their descriptors in ascending id order. -/
theorem devicesFrom_ok_of (engineInfo : Int → Option DeviceInfo) :
    ∀ (n : Nat) (start : Int),
      (∀ j : Nat, j < n → ∃ d, DeviceInfo.new engineInfo (start + (j : Int)) = .ok d) →
      ∃ l : List DeviceInfo, devicesFrom engineInfo start n = .ok l ∧ l.length = n ∧
        ∀ (j : Nat) (h : j < l.length),
          DeviceInfo.new engineInfo (start + (j : Int)) = .ok (l.get ⟨j, h⟩) := by
  intro n
  induction n with
  | zero =>
    intro start _
    exact ⟨[], rfl, rfl, fun j h => absurd h (Nat.not_lt_zero j)⟩
  | succ n ih =>
    intro start hok
    obtain ⟨d, hd⟩ := hok 0 (Nat.succ_pos n)
    rw [show start + ((0 : Nat) : Int) = start by simp] at hd
    obtain ⟨l, hl, hlen, hidx⟩ := ih (start + 1) (fun j hj => by
      obtain ⟨d', hd'⟩ := hok (j + 1) (Nat.succ_lt_succ hj)
      refine ⟨d', ?_⟩
      rw [show start + 1 + (j : Int) = start + ((j + 1 : Nat) : Int) by push_cast; ring]
      exact hd')
    refine ⟨d :: l, ?_, by simp [hlen], ?_⟩
    · unfold devicesFrom
      rw [hd, hl]
    · intro j hj
      cases j with
      | zero =>
        simpa using hd
      | succ j =>
        have h := hidx j (by simpa using hj)
        rw [show start + ((j + 1 : Nat) : Int) = start + 1 + (j : Int) by push_cast; ring]
        simpa using h

/-- Helper for C8: a failure at position `k` of the scanned range, with all
earlier ids resolving, makes the loop return exactly that error. -/
theorem devicesFrom_err_of (engineInfo : Int → Option DeviceInfo) :
    ∀ (n : Nat) (start : Int) (k : Nat) (e : Error), k < n →
      DeviceInfo.new engineInfo (start + (k : Int)) = .error e →
      (∀ j : Nat, j < k → ∃ d, DeviceInfo.new engineInfo (start + (j : Int)) = .ok d) →
      devicesFrom engineInfo start n = .error e := by
  intro n
  induction n with
  | zero =>
    intro start k e hk _ _
    exact absurd hk (Nat.not_lt_zero k)
  | succ n ih =>
    intro start k e hk hke hok
    cases k with
    | zero =>
      rw [show start + ((0 : Nat) : Int) = start by simp] at hke
      unfold devicesFrom
      rw [hke]
    | succ k =>
      obtain ⟨d, hd⟩ := hok 0 (Nat.succ_pos k)
      rw [show start + ((0 : Nat) : Int) = start by simp] at hd
      have hrec : devicesFrom engineInfo (start + 1) n = .error e := by
        refine ih (start + 1) k e (by omega) ?_ (fun j hj => ?_)
        · rw [show start + 1 + (k : Int) = start + ((k + 1 : Nat) : Int) by push_cast; ring]
          exact hke
        · obtain ⟨d', hd'⟩ := hok (j + 1) (Nat.succ_lt_succ hj)
          refine ⟨d', ?_⟩
          rw [show start + 1 + (j : Int) = start + ((j + 1 : Nat) : Int) by push_cast; ring]
          exact hd'
      unfold devicesFrom
      rw [hd, hrec]

/-- C8: `devices()` returns the descriptors of ids `0 .. device_count - 1` in
ascending id order (a list of length `device_count`) when every id resolves,
and returns the first failure with no partial list when obtaining some
descriptor fails. -/
theorem portMidi_devices_spec (engineInfo : Int → Option DeviceInfo) (st : PortMidiState) :
    ((∀ j : Nat, j < st.device_count → ∃ d, DeviceInfo.new engineInfo (j : Int) = .ok d) →
      ∃ l, PortMidi.devices engineInfo st = .ok l ∧ l.length = st.device_count ∧
        ∀ (j : Nat) (h : j < l.length),
          DeviceInfo.new engineInfo (j : Int) = .ok (l.get ⟨j, h⟩)) ∧
    (∀ (k : Nat) (e : Error), k < st.device_count →
      DeviceInfo.new engineInfo (k : Int) = .error e →
      (∀ j : Nat, j < k → ∃ d, DeviceInfo.new engineInfo (j : Int) = .ok d) →
      PortMidi.devices engineInfo st = .error e) := by
  constructor
  · intro hok
    obtain ⟨l, hl, hlen, hidx⟩ :=
      devicesFrom_ok_of engineInfo st.device_count 0 (fun j hj => by simpa using hok j hj)
    exact ⟨l, hl, hlen, fun j hj => by simpa using hidx j hj⟩
  · intro k e hk hke hok
    exact devicesFrom_err_of engineInfo st.device_count 0 k e hk (by simpa using hke)
      (fun j hj => by simpa using hok j hj)

/-- Sample engine device table with a single descriptor at id 0, used by the
C8 witness: with a claimed device count of 2, id 1 fails to resolve. -/
def sampleTable : Int → Option DeviceInfo := fun i =>
  if i = 0 then some ⟨0, "ALSA", "dev a", true, false, false⟩ else none

/-- Witness for C8: on a registry claiming two devices over a table that
resolves only id 0, `devices()` returns the native error for id 1 and no
partial list. -/
theorem portMidi_devices_spec_witness :
    PortMidi.devices sampleTable { device_count := 2, virtual_devs := [] } =
      .error (.portMidi .pmInvalidDeviceId) :=
  (portMidi_devices_spec sampleTable { device_count := 2, virtual_devs := [] }).2 1
    (.portMidi .pmInvalidDeviceId) (by decide) rfl
    (fun j hj => by
      have hj0 : j = 0 := by omega
      subst hj0
      exact ⟨⟨0, "ALSA", "dev a", true, false, false⟩, rfl⟩)

end PortmidiRs
